import Mathlib

/-
Verification development for the g15-control-center daemon
(file src/src/g15_daemon.py, the authoritative variant cited by the claims).

The Python daemon is shallowly embedded as pure Lean functions:
- hardware side effects (writes to /proc/acpi/call) are recorded as the
  command string that would be written, or as (code, args) call records;
- the environment (hwmon sysfs files, the string read back from the ACPI
  interface) is an explicit `Env` value;
- JSON dictionaries are association lists over a small JSON value type;
- the filesystem seen by ConfigManager is a two-file record, where a file
  either holds a parsed JSON value or is corrupt (unparseable JSON);
- wall-clock timestamps are naturals (the Python code only compares
  `now - t < 10`; for t > now Python keeps the entry because the difference
  is negative, and truncated Nat subtraction gives 0 < 10, the same outcome).
-/

/-! ## JSON values and dictionaries -/

/-- Scalar-plus-object JSON values, enough for every dictionary the daemon
builds or parses (configs, requests, response payloads). -/
inductive JVal where
  | null
  | bool (b : Bool)
  | int (n : Int)
  | str (s : String)
  | obj (fields : List (String × JVal))

/-- Dictionary lookup (`d.get(k)` / `k in d` on string-keyed dicts). -/
def lookupA {α : Type} (l : List (String × α)) (k : String) : Option α :=
  (l.find? (fun p => p.1 = k)).map (fun p => p.2)

/-- Dictionary assignment `d[k] = v`: replace in place, else append. -/
def setKeyA {α : Type} : List (String × α) → String → α → List (String × α)
  | [], k, v => [(k, v)]
  | (k0, v0) :: rest, k, v =>
    if k0 = k then (k, v) :: rest else (k0, v0) :: setKeyA rest k v

/-! ## Hexadecimal helpers

`pyIntHex` follows the grammar accepted by Python `int(s, 16)`:
surrounding whitespace, an optional sign, an optional `0x`/`0X` base
prefix, and hexadecimal digits with single underscores allowed between
digits (after a base prefix an underscore may also come first). -/

/-- ASCII whitespace stripped by Python `str.strip()` (the daemon only ever
strips ASCII output of kernel interfaces, so the unicode cases of `strip`
are irrelevant here). -/
def isSpaceB (c : Char) : Bool :=
  c = ' ' || c = '\t' || c = '\n' || c = '\r' || c = '\x0b' || c = '\x0c'

/-- Python `s.strip()` on the character list. -/
def trimChars (cs : List Char) : List Char :=
  ((cs.dropWhile isSpaceB).reverse.dropWhile isSpaceB).reverse

/-- Python `s.startswith("0x")`. -/
def startsWith0x (s : String) : Bool :=
  match s.toList with
  | '0' :: 'x' :: _ => true
  | _ => false

/-- Character is a hexadecimal digit. -/
def isHexDigitB (c : Char) : Bool :=
  ('0' ≤ c && c ≤ '9') || ('a' ≤ c && c ≤ 'f') || ('A' ≤ c && c ≤ 'F')

/-- Value of a hexadecimal digit. -/
def hexDigitVal (c : Char) : Nat :=
  if '0' ≤ c && c ≤ '9' then c.toNat - '0'.toNat
  else if 'a' ≤ c && c ≤ 'f' then c.toNat - 'a'.toNat + 10
  else c.toNat - 'A'.toNat + 10

/-- Remaining digits after at least one digit: `(_? h)*`. -/
def hexTail : List Char → Nat → Option Nat
  | [], acc => some acc
  | '_' :: c :: cs, acc =>
    if isHexDigitB c then hexTail cs (acc * 16 + hexDigitVal c) else none
  | ['_'], _ => none
  | c :: cs, acc =>
    if isHexDigitB c then hexTail cs (acc * 16 + hexDigitVal c) else none

/-- Digit run right after a `0x` base prefix: `(_? h)+`. -/
def hexAfterBase : List Char → Option Nat
  | '_' :: c :: cs => if isHexDigitB c then hexTail cs (hexDigitVal c) else none
  | c :: cs => if isHexDigitB c then hexTail cs (hexDigitVal c) else none
  | [] => none

/-- Digit run without a base prefix: `h (_? h)*`. -/
def hexBare : List Char → Option Nat
  | c :: cs => if isHexDigitB c then hexTail cs (hexDigitVal c) else none
  | [] => none

/-- Unsigned part of the `int(s, 16)` grammar. -/
def hexBody : List Char → Option Nat
  | '0' :: 'x' :: cs => hexAfterBase cs
  | '0' :: 'X' :: cs => hexAfterBase cs
  | cs => hexBare cs

/-- Python `int(s, 16)`: `none` models the `ValueError` branch. -/
def pyIntHex (s : String) : Option Int :=
  match trimChars s.toList with
  | '+' :: cs => (hexBody cs).map (fun n => (n : Int))
  | '-' :: cs => (hexBody cs).map (fun n => -(n : Int))
  | cs => (hexBody cs).map (fun n => (n : Int))

/-- Uppercase hexadecimal digits of a natural. -/
def hexUpperDigits (n : Nat) : List Char :=
  (Nat.toDigits 16 n).map Char.toUpper

/-- Python f-string `f"0x{n:02X}"`: zero-padded two-digit uppercase hex. -/
def hexByte (n : Nat) : String :=
  let ds := hexUpperDigits n
  "0x" ++ String.mk (if ds.length < 2 then '0' :: ds else ds)

/-- Spec-side notion used by claim C1: a `0x`-prefixed hexadecimal literal,
that is `0x` followed by one or more hex digits.  The source code checks
only the `0x` prefix; this stricter predicate is what the claim asserts. -/
def isHexLiteral (s : String) : Bool :=
  match s.toList with
  | '0' :: 'x' :: rest => !rest.isEmpty && rest.all isHexDigitB
  | _ => false

/-! ## ACPI call interface (`G15HardwareController._acpi_call_real`) -/

/-- Constant base object path used in every ACPI command. -/
def acpiBase : String := "\\_SB.AMWW.WMAX"

/-- A hardware call record: the sub-function code and the argument list as
supplied by the caller (before zero padding). -/
abbrev Call := String × List String

/-- External environment of the controller: which hwmon sensors were
discovered (index to the integer `_read_hwmon_sensor` returns; that helper
returns 0 when the file read fails), and the raw string read back from
/proc/acpi/call after a given command is written. -/
structure Env where
  hwmon_path : Bool
  hwmon_temps : List (Int × Int)
  hwmon_fans : List (Int × Int)
  acpi_raw : String → List String → String

/-- Integer-keyed lookup for the hwmon sensor maps. -/
def lookupN (m : List (Int × Int)) (k : Int) : Option Int :=
  (m.find? (fun p => p.1 = k)).map (fun p => p.2)

/-- Character is `{` or `}` (the set Python strips with `strip("{}")`). -/
def braceChar (c : Char) : Bool := c = '\x7b' || c = '\x7d'

/-- Python `cs.strip("{}")`: remove braces from both ends. -/
def stripBraceEnds (cs : List Char) : List Char :=
  ((cs.dropWhile braceChar).reverse.dropWhile braceChar).reverse

/-- Post-processing of the string read back from /proc/acpi/call:
strip, and when the result is a braced tuple take its first comma-field
(`result.strip("{}").split(",")[0].strip()`); an empty final result
becomes "0x0". -/
def processAcpiResult (raw : String) : String :=
  let r := trimChars raw.toList
  let r := match r with
    | '\x7b' :: _ => trimChars ((stripBraceEnds r).takeWhile (fun c => !(c = ',')))
    | _ => r
  if r.isEmpty then "0x0" else String.mk r

/-- Python `", ".join(args)`. -/
def joinComma : List String → String
  | [] => ""
  | [a] => a
  | a :: rest => a ++ ", " ++ joinComma rest

/-- Command string written to /proc/acpi/call: base path, a literal `0`,
the sub-function code, and the argument list zero-padded to four entries
(`while len(args) < 4: args.append("0x00")` then comma-joined inside
braces). -/
def buildCommand (wmi_code : String) (args : List String) : String :=
  let padded := args ++ List.replicate (4 - args.length) "0x00"
  acpiBase ++ " 0 " ++ wmi_code ++ " \x7b" ++ joinComma padded ++ "\x7d"

/-- Outcome of `_acpi_call_real`: the command written to the ACPI path
(`none` when the call is rejected before any write) and the returned
result string. -/
structure AcpiOutcome where
  written : Option String
  result : String

/-- `G15HardwareController._acpi_call_real`: reject (returning "0x0")
unless the code and every supplied argument start with `0x`; otherwise pad
the arguments, write the command and post-process the read-back string.
The Python loop returns at the first argument missing the prefix, which
has the same outcome as the `any` test here. -/
def acpi_call_real (env : Env) (wmi_code : String) (args : List String) : AcpiOutcome :=
  if !(startsWith0x wmi_code) then { written := none, result := "0x0" }
  else if args.any (fun a => !(startsWith0x a)) then { written := none, result := "0x0" }
  else
    { written := some (buildCommand wmi_code args)
      result := processAcpiResult (env.acpi_raw wmi_code args) }

/-! ## Power modes and controller state (`G15HardwareController`) -/

/-- Closed enumeration of power modes.  Each variant of the Python enum
carries a display label and a fixed vendor code byte. -/
inductive PowerMode where
  | QUIET
  | BALANCED
  | PERFORMANCE
  | CUSTOM
deriving DecidableEq

/-- Display label (first component of the Python enum value). -/
def PowerMode.label : PowerMode → String
  | .QUIET => "Silencioso"
  | .BALANCED => "Balanceado"
  | .PERFORMANCE => "Performance"
  | .CUSTOM => "Personalizado"

/-- Vendor code (second component of the Python enum value). -/
def PowerMode.code : PowerMode → String
  | .QUIET => "0xa3"
  | .BALANCED => "0xa0"
  | .PERFORMANCE => "0xa1"
  | .CUSTOM => "0xa2"

/-- Snapshot of {mode, fan boosts, manual flags} taken when G-Mode is
enabled (`pre_gmode_state`). -/
structure GSnapshot where
  mode : PowerMode
  fan1_boost : Int
  fan2_boost : Int
  fan1_manual : Bool
  fan2_manual : Bool
deriving DecidableEq

/-- In-memory controller state.  The Python dicts
`current_fan_boosts = {1: _, 2: _}` and `manual_fan_control = {1: _, 2: _}`
always hold exactly the keys 1 and 2, so they are modelled as one field
per fan.  Config persistence (`_save_current_config`) changes neither this
state nor the hardware, and is modelled separately by the ConfigManager
section, so controller transitions track only the state and the issued
ACPI calls. -/
structure CtrlState where
  current_mode : PowerMode
  g_mode_active : Bool
  manual_mode : Bool
  fan1_boost : Int
  fan2_boost : Int
  fan1_manual : Bool
  fan2_manual : Bool
  pre_gmode_state : Option GSnapshot
deriving DecidableEq

/-- Controller state right after `__init__` sets its fields. -/
def initState : CtrlState :=
  { current_mode := .BALANCED, g_mode_active := false, manual_mode := false
    fan1_boost := 0, fan2_boost := 0, fan1_manual := false, fan2_manual := false
    pre_gmode_state := none }

/-- `set_power_mode(mode, save_config)`: the `isinstance` guard cannot fail
for a typed `PowerMode`, so the function always succeeds; a non-Custom mode
issues one hardware call with the fixed mode code and clears fan state,
Custom only flips the software-side `manual_mode` unlock. -/
def set_power_mode (mode : PowerMode) (saveConfig : Bool) (s : CtrlState) :
    Bool × CtrlState × List Call :=
  let s1 := { s with current_mode := mode }
  if mode = PowerMode.CUSTOM then
    (true, { s1 with manual_mode := true }, [])
  else
    (true,
     { s1 with manual_mode := false
               fan1_boost := 0, fan2_boost := 0
               fan1_manual := false, fan2_manual := false },
     [("0x15", ["0x01", mode.code])])

/-- `set_fan_boost(fan_id, percentage, save_config, is_manual)`:
hard-reject fan ids outside {1,2} and percentages outside [0,100] before
any hardware access; otherwise issue the boost call and record boost and
manual flag (`manual = percentage > 0` when `is_manual`). -/
def set_fan_boost (fan_id : Int) (percentage : Int) (saveConfig is_manual : Bool)
    (s : CtrlState) : Bool × CtrlState × List Call :=
  if ¬(fan_id = 1 ∨ fan_id = 2) then (false, s, [])
  else if ¬(0 ≤ percentage ∧ percentage ≤ 100) then (false, s, [])
  else
    let sensor := hexByte (0x32 + fan_id - 1).toNat
    let hexv := hexByte percentage.toNat
    let s1 :=
      if fan_id = 1 then
        { s with fan1_boost := percentage
                 fan1_manual := if is_manual then decide (percentage > 0) else s.fan1_manual }
      else
        { s with fan2_boost := percentage
                 fan2_manual := if is_manual then decide (percentage > 0) else s.fan2_manual }
    (true, s1, [("0x15", ["0x02", sensor, hexv])])

/-- `get_fan_boost(fan_id)`: 0 for an invalid fan id, else the recorded
boost; this getter reads only in-memory state and never touches the ACPI
interface, hence the always-empty call list. -/
def get_fan_boost (s : CtrlState) (fan_id : Int) : Int × List Call :=
  if ¬(fan_id = 1 ∨ fan_id = 2) then (0, [])
  else ((if fan_id = 1 then s.fan1_boost else s.fan2_boost), [])

/-- `enable_g_mode(save_config)`: snapshot the pre-G-Mode state unless
G-Mode is already active, raise the active flag, and issue the fixed
two-call enable sequence. -/
def enable_g_mode (saveConfig : Bool) (s : CtrlState) : Bool × CtrlState × List Call :=
  let snap := some (GSnapshot.mk s.current_mode s.fan1_boost s.fan2_boost s.fan1_manual s.fan2_manual)
  let s1 :=
    if s.g_mode_active then s
    else { s with pre_gmode_state := snap }
  let s2 := { s1 with g_mode_active := true }
  (true, s2, [("0x25", ["0x01", "0x01"]), ("0x15", ["0x01", "0xab"])])

/-- `disable_g_mode(save_config)`: drop the active flag, issue the disable
call, then either replay the snapshot (neutral Balanced call first, then
the snapshotted mode, and for Custom each manually-controlled fan boost)
and clear it, or re-assert the current mode when no snapshot exists. -/
def disable_g_mode (saveConfig : Bool) (s : CtrlState) : Bool × CtrlState × List Call :=
  let s1 := { s with g_mode_active := false }
  let c0 : List Call := [("0x25", ["0x01", "0x00"])]
  match s1.pre_gmode_state with
  | some snap =>
    let c1 := c0 ++ [("0x15", ["0x01", PowerMode.BALANCED.code])]
    if snap.mode = PowerMode.CUSTOM then
      let r2 := set_power_mode PowerMode.CUSTOM false s1
      let r3 :=
        if snap.fan1_manual then set_fan_boost 1 snap.fan1_boost false true r2.2.1
        else (true, r2.2.1, [])
      let r4 :=
        if snap.fan2_manual then set_fan_boost 2 snap.fan2_boost false true r3.2.1
        else (true, r3.2.1, [])
      (true, { r4.2.1 with pre_gmode_state := none }, c1 ++ r2.2.2 ++ r3.2.2 ++ r4.2.2)
    else
      let r2 := set_power_mode snap.mode false s1
      (true, { r2.2.1 with pre_gmode_state := none }, c1 ++ r2.2.2)
  | none =>
    (true, s1, c0 ++ [("0x15", ["0x01", s1.current_mode.code])])

/-- `toggle_g_mode()`: dispatch on the active flag. -/
def toggle_g_mode (s : CtrlState) : Bool × CtrlState × List Call :=
  if s.g_mode_active then disable_g_mode true s else enable_g_mode true s

/-! ## Sensor reads with hwmon-priority / ACPI-fallback -/

/-- ACPI fallback of `get_cpu_temp`: call sub-code 0x14 with sensor 0x01,
parse the result as hex and range-check to 0..120, else return 45. -/
def cpuAcpiFallback (env : Env) : Int × List Call :=
  let out := acpi_call_real env "0x14" ["0x04", "0x01"]
  (match pyIntHex out.result with
   | some t => if 0 ≤ t ∧ t ≤ 120 then t else 45
   | none => 45,
   [("0x14", ["0x04", "0x01"])])

/-- `get_cpu_temp()`: hwmon sensor 1 first (millidegrees, positive, result
range-checked), then the ACPI fallback.  `m / 1000` agrees with Python
`m // 1000` because the branch requires `m > 0`. -/
def get_cpu_temp (env : Env) : Int × List Call :=
  match (if env.hwmon_path then lookupN env.hwmon_temps 1 else none) with
  | some m =>
    if m > 0 ∧ 0 ≤ m / 1000 ∧ m / 1000 ≤ 120 then (m / 1000, [])
    else cpuAcpiFallback env
  | none => cpuAcpiFallback env

/-- ACPI fallback of `get_gpu_temp`: sensor 0x02, default 50. -/
def gpuAcpiFallback (env : Env) : Int × List Call :=
  let out := acpi_call_real env "0x14" ["0x04", "0x02"]
  (match pyIntHex out.result with
   | some t => if 0 ≤ t ∧ t ≤ 120 then t else 50
   | none => 50,
   [("0x14", ["0x04", "0x02"])])

/-- `get_gpu_temp()`: hwmon sensor 2 first, then the ACPI fallback. -/
def get_gpu_temp (env : Env) : Int × List Call :=
  match (if env.hwmon_path then lookupN env.hwmon_temps 2 else none) with
  | some m =>
    if m > 0 ∧ 0 ≤ m / 1000 ∧ m / 1000 ≤ 120 then (m / 1000, [])
    else gpuAcpiFallback env
  | none => gpuAcpiFallback env

/-- ACPI fallback of `get_fan_rpm`: sensor id `0x32 + fan_id - 1`, result
range-checked to 0..10000, defaults 2500 (fan 1) / 2300 (fan 2). -/
def rpmAcpiFallback (env : Env) (fan_id : Int) : Int × List Call :=
  let sensor := hexByte (0x32 + fan_id - 1).toNat
  let out := acpi_call_real env "0x14" ["0x05", sensor]
  (match pyIntHex out.result with
   | some r => if 0 ≤ r ∧ r ≤ 10000 then r else (if fan_id = 1 then 2500 else 2300)
   | none => if fan_id = 1 then 2500 else 2300,
   [("0x14", ["0x05", sensor])])

/-- `get_fan_rpm(fan_id)`: 0 for an invalid fan id (no hardware access),
else hwmon first with range check, then the ACPI fallback. -/
def get_fan_rpm (env : Env) (fan_id : Int) : Int × List Call :=
  if ¬(fan_id = 1 ∨ fan_id = 2) then (0, [])
  else
    match (if env.hwmon_path then lookupN env.hwmon_fans fan_id else none) with
    | some rpm => if 0 ≤ rpm ∧ rpm ≤ 10000 then (rpm, []) else rpmAcpiFallback env fan_id
    | none => rpmAcpiFallback env fan_id

/-! ## Reachable controller states (for the snapshot invariant) -/

/-- One externally triggerable controller mutation. -/
inductive GOp where
  | enable
  | disable
  | toggle
  | setMode (m : PowerMode)
  | setBoost (fan_id : Int) (pct : Int) (is_manual : Bool)

/-- State component of one controller mutation. -/
def applyGOp (s : CtrlState) : GOp → CtrlState
  | .enable => (enable_g_mode true s).2.1
  | .disable => (disable_g_mode true s).2.1
  | .toggle => (toggle_g_mode s).2.1
  | .setMode m => (set_power_mode m true s).2.1
  | .setBoost i p man => (set_fan_boost i p true man s).2.1

/-- Run a sequence of controller mutations. -/
def runGOps (s : CtrlState) (ops : List GOp) : CtrlState :=
  ops.foldl applyGOp s

/-! ## ConfigManager (validated JSON file with backup) -/

/-- Content of a file on disk: a parsed JSON value, or bytes that are not
valid JSON (`json.JSONDecodeError` on load). -/
inductive FileContent where
  | json (v : JVal)
  | corrupt

/-- The two paths ConfigManager touches: config.json and config.json.bak
(`none` = the file does not exist). -/
structure FS where
  config : Option FileContent
  backup : Option FileContent

/-- `ConfigManager.default_config`. -/
def defaultConfig : List (String × JVal) :=
  [ ("power_mode", JVal.str "Balanceado")
  , ("g_mode", JVal.bool false)
  , ("fan_profiles", JVal.obj [("cpu_fan_boost", JVal.int 0), ("gpu_fan_boost", JVal.int 0)])
  , ("auto_apply", JVal.bool true)
  , ("last_saved", JVal.null)
  , ("version", JVal.str "1.0") ]

/-- The closed set of valid power-mode labels. -/
def validModes : List String :=
  ["Silencioso", "Balanceado", "Performance", "Personalizado"]

/-- Whether `pat` occurs as a contiguous run at the front of `cs`. -/
def headRun : List Char → List Char → Bool
  | [], _ => true
  | _ :: _, [] => false
  | a :: pat, b :: cs => a = b && headRun pat cs

/-- Python `pat in s` substring containment, on character lists. -/
def containsSub (pat : List Char) : List Char → Bool
  | [] => pat.isEmpty
  | c :: cs => headRun pat (c :: cs) || containsSub pat cs

/-- One optional fan-boost entry of `_validate_config`: Python checks
`isinstance(boost, int) and 0 <= boost <= 100`, and `isinstance` accepts
booleans (`bool` subclasses `int`, `True` = 1 and `False` = 0, both inside
the range, so any boolean passes); other value types fail. -/
def boostOk : Option JVal → Bool
  | none => true
  | some (JVal.int n) => decide (0 ≤ n) && decide (n ≤ 100)
  | some (JVal.bool _) => true
  | some _ => false

/-- The fan-profiles section of `_validate_config`.  A dict checks each
boost entry that is present.  For a string value Python evaluates
`key in value` as a silent substring test: a hit goes on to index the
string with a string key, raising TypeError which the handler turns into
False, while no hit for either key skips both entries and the section
passes — so a string containing neither key name validates.  For the
remaining scalars the membership test itself raises TypeError, caught as
False.  (JSON arrays sit outside the JVal model; the daemon never writes
one into a config.) -/
def fanProfilesOk : JVal → Bool
  | JVal.obj fp =>
    boostOk (lookupA fp "cpu_fan_boost") && boostOk (lookupA fp "gpu_fan_boost")
  | JVal.str s =>
    !(containsSub "cpu_fan_boost".toList s.toList)
    && !(containsSub "gpu_fan_boost".toList s.toList)
  | _ => false

/-- `ConfigManager._validate_config` on the fields of a dict: the three
required keys exist, power_mode is one of the closed labels, g_mode is a
boolean, and the fan-profiles section passes (`fanProfilesOk`).  The
missing-key arm mirrors `config.get('fan_profiles', {})`; it is reachable
only when the required-key conjunct has already failed. -/
def validateFields (cfg : List (String × JVal)) : Bool :=
  (["power_mode", "g_mode", "fan_profiles"].all (fun k => (lookupA cfg k).isSome))
  && (match lookupA cfg "power_mode" with
      | some (JVal.str m) => validModes.contains m
      | _ => false)
  && (match lookupA cfg "g_mode" with
      | some (JVal.bool _) => true
      | _ => false)
  && (match lookupA cfg "fan_profiles" with
      | some fp => fanProfilesOk fp
      | none => fanProfilesOk (JVal.obj []))

/-- `_validate_config` on an arbitrary JSON value: a non-dict top level
fails (in Python each field access raises, caught as False). -/
def validateConfig : JVal → Bool
  | JVal.obj fields => validateFields fields
  | _ => false

/-- `ConfigManager.save(config)`: validate first (reject without touching
disk on failure), stamp `last_saved`, copy the current file to the backup
path, then write the new content (temp file + atomic rename, collapsed
here to one write since no intermediate state is observable). -/
def configSave (cfg : List (String × JVal)) (now : String) (fs : FS) : Bool × FS :=
  if !(validateFields cfg) then (false, fs)
  else
    let cfg1 := setKeyA cfg "last_saved" (JVal.str now)
    let fs1 :=
      match fs.config with
      | some c => { fs with backup := some c }
      | none => fs
    (true, { fs1 with config := some (FileContent.json (JVal.obj cfg1)) })

/-- `ConfigManager.load()`: missing file writes and returns defaults
(Python mutates `default_config` itself when stamping `last_saved`, so the
returned copy carries the stamp); a parsed file is re-validated, returning
defaults on failure; corrupt JSON restores the backup and retries.  `fuel`
bounds the retry recursion: Python recurses until `RecursionError`, which
the inner `except Exception` turns into the defaults return, exactly the
`fuel = 0` case. -/
def configLoad : Nat → String → FS → List (String × JVal) × FS
  | 0, _, fs => (defaultConfig, fs)
  | Nat.succ fuel, now, fs =>
    match fs.config with
    | none =>
      let r := configSave defaultConfig now fs
      (setKeyA defaultConfig "last_saved" (JVal.str now), r.2)
    | some (FileContent.json v) =>
      match v with
      | JVal.obj fields =>
        if validateFields fields then (fields, fs) else (defaultConfig, fs)
      | _ => (defaultConfig, fs)
    | some FileContent.corrupt =>
      match fs.backup with
      | some b => configLoad fuel now { fs with config := some b }
      | none => (defaultConfig, fs)

/-! ## Daemon server: rate limiting, validation and dispatch -/

/-- The allow-list of action names (`G15DaemonServer.process_request`). -/
def allowedActions : List String :=
  [ "get_status", "get_temps", "get_fans", "get_power_mode", "get_all_data"
  , "set_power_mode", "set_fan_boost", "toggle_g_mode", "authenticate" ]

/-- `G15DaemonServer.validate_request(client_addr, request_data)` for one
client address: prune the recorded timestamps to the 10-second window,
reject when more than 50 remain (without recording the new timestamp),
otherwise record the timestamp and then require the `action` field.
Returns the admission flag and the updated timestamp list. -/
def validate_request (now : Nat) (hist : List Nat) (req : List (String × JVal)) :
    Bool × List Nat :=
  let pruned := hist.filter (fun t => now - t < 10)
  if pruned.length > 50 then (false, pruned)
  else
    let recorded := pruned ++ [now]
    if (lookupA req "action").isSome then (true, recorded) else (false, recorded)

/-- The closed response shape `{status, message?, data?, token?}`. -/
structure Response where
  status : String
  message : Option String
  data : Option JVal
  token : Option String

/-- Success response with a data payload. -/
def okData (d : JVal) : Response :=
  { status := "success", message := none, data := some d, token := none }

/-- Error response with a message. -/
def errMsg (m : String) : Response :=
  { status := "error", message := some m, data := none, token := none }

/-- Bare `{"status": "success" | "error"}` response. -/
def statusOnly (ok : Bool) : Response :=
  { status := if ok then "success" else "error", message := none, data := none, token := none }

/-- Python `isinstance(x, int)` applied to an optional JSON value,
yielding the integer the dispatcher passes on: integers themselves, and
booleans (`bool` subclasses `int`, `True` = 1 so it acts as fan 1,
`False` = 0); storing the original boolean rather than its integer value
is not observable through the embedded state, which keeps the integer. -/
def asPyInt : Option JVal → Option Int
  | some (JVal.int n) => some n
  | some (JVal.bool b) => some (if b then 1 else 0)
  | _ => none

/-- Label-to-mode map built by the `set_power_mode` action
(`{mode.value[0]: mode for mode in PowerMode}`). -/
def modeFromLabel : JVal → Option PowerMode
  | JVal.str l =>
    if l = "Silencioso" then some PowerMode.QUIET
    else if l = "Balanceado" then some PowerMode.BALANCED
    else if l = "Performance" then some PowerMode.PERFORMANCE
    else if l = "Personalizado" then some PowerMode.CUSTOM
    else none
  | _ => none

/-- The `fans` payload shared by `get_fans` and `get_all_data`. -/
def fansPayload (env : Env) (s : CtrlState) : JVal × List Call :=
  let r1 := get_fan_rpm env 1
  let r2 := get_fan_rpm env 2
  (JVal.obj
    [ ("fan1_rpm", JVal.int r1.1), ("fan2_rpm", JVal.int r2.1)
    , ("fan1_boost", JVal.int (get_fan_boost s 1).1)
    , ("fan2_boost", JVal.int (get_fan_boost s 2).1)
    , ("fan1_manual", JVal.bool s.fan1_manual)
    , ("fan2_manual", JVal.bool s.fan2_manual) ],
   r1.2 ++ r2.2)

/-- The `status` payload shared by `get_status` and `get_all_data`. -/
def statusPayload (env : Env) (model : String) (s : CtrlState) : JVal :=
  JVal.obj
    [ ("model", JVal.str model)
    , ("hwmon_available", JVal.bool env.hwmon_path)
    , ("g_mode_active", JVal.bool s.g_mode_active) ]

/-- `G15DaemonServer.process_request(request_data)`.  Inputs beyond the
request: the hardware environment and model string, the controller state,
the active-sessions map, the token `secrets.token_hex(16)` would produce,
and the current time.  Output: the response, the controller state after
the action, the ACPI calls issued, and the active-sessions map after the
action. -/
def process_request (env : Env) (model : String) (s : CtrlState)
    (sessions : List (String × Nat)) (freshToken : String) (now : Nat)
    (req : List (String × JVal)) :
    Response × CtrlState × List Call × List (String × Nat) :=
  let action := (lookupA req "action").getD (JVal.str "")
  let allowed :=
    match action with
    | JVal.str a => allowedActions.contains a
    | _ => false
  if !allowed then (errMsg "Unauthorized action", s, [], sessions)
  else
    match action with
    | JVal.str a =>
      if a = "authenticate" then
        ({ status := "success", message := none, data := none, token := some freshToken },
         s, [], setKeyA sessions freshToken now)
      else if a = "get_status" then
        (okData (statusPayload env model s), s, [], sessions)
      else if a = "get_temps" then
        let ct := get_cpu_temp env
        let gt := get_gpu_temp env
        (okData (JVal.obj [("cpu_temp", JVal.int ct.1), ("gpu_temp", JVal.int gt.1)]),
         s, ct.2 ++ gt.2, sessions)
      else if a = "get_fans" then
        let fans := fansPayload env s
        (okData fans.1, s, fans.2, sessions)
      else if a = "get_power_mode" then
        (okData (JVal.obj
          [ ("current_mode", JVal.str s.current_mode.label)
          , ("g_mode", JVal.bool s.g_mode_active) ]), s, [], sessions)
      else if a = "set_power_mode" then
        match modeFromLabel ((lookupA req "mode").getD (JVal.str "")) with
        | none => (errMsg "Invalid power mode", s, [], sessions)
        | some m =>
          let r := set_power_mode m true s
          (statusOnly r.1, r.2.1, r.2.2, sessions)
      else if a = "set_fan_boost" then
        match asPyInt (lookupA req "fan_id"), asPyInt (lookupA req "percentage") with
        | some fid, some pct =>
          let r := set_fan_boost fid pct true true s
          (statusOnly r.1, r.2.1, r.2.2, sessions)
        | _, _ => (errMsg "Invalid parameters", s, [], sessions)
      else if a = "get_all_data" then
        let ct := get_cpu_temp env
        let gt := get_gpu_temp env
        let fans := fansPayload env s
        (okData (JVal.obj
          [ ("temps", JVal.obj [("cpu_temp", JVal.int ct.1), ("gpu_temp", JVal.int gt.1)])
          , ("fans", fans.1)
          , ("power", JVal.obj
              [ ("current_mode", JVal.str s.current_mode.label)
              , ("g_mode", JVal.bool s.g_mode_active) ])
          , ("status", statusPayload env model s) ]),
         s, ct.2 ++ gt.2 ++ fans.2, sessions)
      else if a = "toggle_g_mode" then
        let r := toggle_g_mode s
        (statusOnly r.1, r.2.1, r.2.2, sessions)
      else (errMsg "Unknown error", s, [], sessions)
    | _ => (errMsg "Unknown error", s, [], sessions)

/-- `G15DaemonServer.handle_client` after JSON decoding: admission control
via `validate_request`, then dispatch via `process_request`.  The final
component is the updated per-client timestamp list. -/
def handle_request (env : Env) (model : String) (s : CtrlState)
    (sessions : List (String × Nat)) (hist : List Nat) (freshToken : String)
    (now : Nat) (req : List (String × JVal)) :
    Response × CtrlState × List Call × List (String × Nat) × List Nat :=
  let v := validate_request now hist req
  if v.1 then
    let r := process_request env model s sessions freshToken now req
    (r.1, r.2.1, r.2.2.1, r.2.2.2, v.2)
  else
    ({ status := "error", message := some "Request validation failed"
     , data := none, token := none }, s, [], sessions, v.2)

/-- Admission flags of a same-address request sequence: fold
`validate_request` over the arrival times, threading the recorded
timestamp list. -/
def runRequests (req : List (String × JVal)) (times : List Nat) :
    List Bool × List Nat :=
  times.foldl
    (fun acc t =>
      let r := validate_request t acc.2 req
      (acc.1 ++ [r.1], r.2))
    ([], [])

/-! ## Claim C1: the hex filter of `_acpi_call_real` -/

/-- Environment used to exhibit the C1 gap: the ACPI read always returns
"0x5", so an issued call is observably different from a rejected one. -/
def envC1 : Env :=
  { hwmon_path := false, hwmon_temps := [], hwmon_fans := []
  , acpi_raw := fun _ _ => "0x5" }

/-- C1 counterexample: the sub-function code "0xzz" is not a 0x-prefixed
hexadecimal literal, yet `_acpi_call_real` does not reject it: the command
embedding "0xzz" is written to the ACPI interface and the read-back result
(not "0x0") is returned, because the code only checks the two-character
"0x" prefix. -/
theorem acpi_call_hex_literal_counterexample :
    isHexLiteral "0xzz" = false
    ∧ (acpi_call_real envC1 "0xzz" []).written =
        some "\\_SB.AMWW.WMAX 0 0xzz \x7b0x00, 0x00, 0x00, 0x00\x7d"
    ∧ (acpi_call_real envC1 "0xzz" []).result = "0x5" := by
  refine ⟨by decide, by decide, by decide⟩

/-- C1 (amended): `_acpi_call_real` rejects a call, returning "0x0" with
nothing written to the ACPI interface, exactly when the sub-function code
or one of the supplied arguments lacks the "0x" prefix (a weaker filter
than the full hex-literal check the claim states); when all of them carry
the prefix, the single written command is built only from the constant
base path, the code, the supplied arguments and the "0x00" padding. -/
theorem acpi_call_prefix_gate (env : Env) (code : String) (args : List String) :
    if startsWith0x code && args.all (fun a => startsWith0x a)
    then (acpi_call_real env code args).written = some (buildCommand code args)
         ∧ (acpi_call_real env code args).result = processAcpiResult (env.acpi_raw code args)
    else (acpi_call_real env code args).written = none
         ∧ (acpi_call_real env code args).result = "0x0" := by
  have hswap : (args.any fun a => !(startsWith0x a)) = !(args.all fun a => startsWith0x a) := by
    induction args with
    | nil => rfl
    | cons a t ih => simp [List.any_cons, List.all_cons, ih, Bool.not_and]
  cases h1 : startsWith0x code with
  | false => simp [acpi_call_real, h1]
  | true =>
    cases h2 : args.all (fun a => startsWith0x a) with
    | false => simp [acpi_call_real, h1, hswap, h2]
    | true => simp [acpi_call_real, h1, hswap, h2]

/-! ## Claim C7: fan id and percentage validation -/

/-- C7: a fan id outside {1,2} makes `set_fan_boost` fail and
`get_fan_boost` return 0, both with an empty ACPI call list and an
unchanged state; a percentage outside [0,100] makes `set_fan_boost` fail
the same way. -/
theorem fan_validation_rejects_before_hardware :
    (∀ (fid pct : Int) (man : Bool) (s : CtrlState), ¬(fid = 1 ∨ fid = 2) →
        set_fan_boost fid pct true man s = (false, s, []))
    ∧ (∀ (fid : Int) (s : CtrlState), ¬(fid = 1 ∨ fid = 2) →
        get_fan_boost s fid = (0, []))
    ∧ (∀ (fid pct : Int) (man : Bool) (s : CtrlState), ¬(0 ≤ pct ∧ pct ≤ 100) →
        set_fan_boost fid pct true man s = (false, s, [])) := by
  refine ⟨?_, ?_, ?_⟩
  · intro fid pct man s h
    simp [set_fan_boost, h]
  · intro fid s h
    simp [get_fan_boost, h]
  · intro fid pct man s h
    by_cases hf : fid = 1 ∨ fid = 2
    · simp [set_fan_boost, hf, h]
    · simp [set_fan_boost, hf]

/-- C7 witness: fan id 3 and percentage 101 are rejected on the initial
state with no call issued. -/
theorem fan_validation_rejects_before_hardware_witness :
    set_fan_boost 3 50 true true initState = (false, initState, [])
    ∧ get_fan_boost initState 3 = (0, [])
    ∧ set_fan_boost 1 101 true true initState = (false, initState, []) :=
  ⟨fan_validation_rejects_before_hardware.1 3 50 true initState (by decide),
   fan_validation_rejects_before_hardware.2.1 3 initState (by decide),
   fan_validation_rejects_before_hardware.2.2 1 101 true initState (by decide)⟩

/-! ## Claim C4: `set_power_mode` behaviour and idempotence -/

/-- C4: `set_power_mode` always succeeds; a non-Custom mode issues exactly
the one call carrying that mode's fixed code and resets both fan boosts
to 0 and both manual flags to false, while Custom issues no call and
leaves the fan state untouched; and two consecutive Balanced calls issue
the same call list and leave boosts 0 / manual false after each. -/
theorem set_power_mode_contract (m : PowerMode) (s : CtrlState) :
    (set_power_mode m true s).1 = true
    ∧ (set_power_mode m true s).2.1.current_mode = m
    ∧ (if m = PowerMode.CUSTOM
       then (set_power_mode m true s).2.2 = []
            ∧ (set_power_mode m true s).2.1.fan1_boost = s.fan1_boost
            ∧ (set_power_mode m true s).2.1.fan2_boost = s.fan2_boost
            ∧ (set_power_mode m true s).2.1.fan1_manual = s.fan1_manual
            ∧ (set_power_mode m true s).2.1.fan2_manual = s.fan2_manual
       else (set_power_mode m true s).2.2 = [("0x15", ["0x01", m.code])]
            ∧ (set_power_mode m true s).2.1.fan1_boost = 0
            ∧ (set_power_mode m true s).2.1.fan2_boost = 0
            ∧ (set_power_mode m true s).2.1.fan1_manual = false
            ∧ (set_power_mode m true s).2.1.fan2_manual = false)
    ∧ (set_power_mode PowerMode.BALANCED true
         (set_power_mode PowerMode.BALANCED true s).2.1).2.2
        = (set_power_mode PowerMode.BALANCED true s).2.2 := by
  by_cases hm : m = PowerMode.CUSTOM
  · simp [set_power_mode, hm]
  · simp [set_power_mode, hm]

/-! ## Claims C2 and C10: rate limiting and window accounting -/

/-- A minimal well-formed request used in the concrete rate-limit runs. -/
def reqGet : List (String × JVal) := [("action", JVal.str "get_status")]

/-- C10: a request rejected by the rate-limit check leaves the recorded
window at exactly the pruned timestamps (its own timestamp is not
recorded), while any request passing the rate-limit check appends its
timestamp before the required-field check runs, so a request without an
`action` field is rejected yet still consumes one slot of the quota. -/
theorem rate_window_accounting (now : Nat) (hist : List Nat) (req : List (String × JVal)) :
    ((hist.filter (fun t => now - t < 10)).length > 50 →
      validate_request now hist req = (false, hist.filter (fun t => now - t < 10)))
    ∧ ((hist.filter (fun t => now - t < 10)).length ≤ 50 →
      validate_request now hist req =
        ((lookupA req "action").isSome, hist.filter (fun t => now - t < 10) ++ [now])) := by
  constructor
  · intro h
    simp [validate_request, h]
  · intro h
    have h1 : ¬((hist.filter (fun t => now - t < 10)).length > 50) := by omega
    cases hs : (lookupA req "action").isSome <;> simp [validate_request, h1, hs]

/-- C10 witness: a first-ever request with no `action` field is rejected
but its timestamp is recorded. -/
theorem rate_window_accounting_witness :
    validate_request 0 ([] : List Nat) ([] : List (String × JVal)) = (false, [0]) := by
  have h := (rate_window_accounting 0 [] []).2 (by decide)
  simpa using h

set_option maxRecDepth 100000 in
/-- C2 counterexample: 51 requests from one address all arriving inside
the 10-second window do not get the 51st rejected; the 51st is still
admitted (only the 52nd would be rejected), because the code rejects only
when strictly more than 50 timestamps remain in the window. -/
theorem rate_limit_51st_admitted :
    (runRequests reqGet (List.replicate 51 0)).1.getLast? = some true := by decide

set_option maxRecDepth 100000 in
/-- C2 (amended): a request is admitted exactly when at most 50 recorded
timestamps remain in the 10-second window and the `action` field is
present — so of 52 requests arriving inside one window the 51st is still
admitted and the 52nd is the first one rejected — and a request arriving
once the 10-second window has elapsed past every recorded timestamp is
admitted again. -/
theorem rate_limit_window_contract :
    (∀ (now : Nat) (hist : List Nat) (req : List (String × JVal)),
      (validate_request now hist req).1 = true ↔
        ((hist.filter (fun t => now - t < 10)).length ≤ 50
          ∧ (lookupA req "action").isSome = true))
    ∧ (runRequests reqGet (List.replicate 52 0)).1.getLast? = some false
    ∧ (∀ (now : Nat) (hist : List Nat) (req : List (String × JVal)),
        (∀ t ∈ hist, t + 10 ≤ now) → (lookupA req "action").isSome = true →
        (validate_request now hist req).1 = true) := by
  refine ⟨?_, by decide, ?_⟩
  · intro now hist req
    by_cases h : (hist.filter (fun t => now - t < 10)).length > 50
    · simp [validate_request, h]
    · cases hs : (lookupA req "action").isSome <;> simp [validate_request, h, hs] <;> omega
  · intro now hist req hall hs
    have hfil : hist.filter (fun t => now - t < 10) = [] := by
      apply List.filter_eq_nil_iff.mpr
      intro t ht
      have := hall t ht
      simp
      omega
    simp [validate_request, hfil, hs]

/-- C2 witness: with one recorded timestamp at time 0, a well-formed
request at time 10 (the window elapsed) is admitted again. -/
theorem rate_limit_window_contract_witness :
    (validate_request 10 [0] reqGet).1 = true :=
  rate_limit_window_contract.2.2 10 [0] reqGet (by decide) (by decide)

/-! ## Claims C3 and C5: G-Mode snapshot behaviour -/

/-- Snapshot/flag invariant of the controller: a pre-G-Mode snapshot is
present exactly when G-Mode is active. -/
def gmodeInv (s : CtrlState) : Prop :=
  s.pre_gmode_state.isSome = s.g_mode_active

/-- `disable_g_mode` always ends with the snapshot cleared and the active
flag down, on every branch (snapshot replay or plain mode re-assert). -/
theorem disable_clears_snapshot (s : CtrlState) :
    ((disable_g_mode true s).2.1).pre_gmode_state = none
    ∧ ((disable_g_mode true s).2.1).g_mode_active = false := by
  cases hpre : s.pre_gmode_state with
  | none => simp [disable_g_mode, hpre]
  | some snap =>
    by_cases hm : snap.mode = PowerMode.CUSTOM
    · simp only [disable_g_mode, hpre, hm, if_pos]
      split_ifs <;> simp [set_power_mode, set_fan_boost] <;> split_ifs <;> simp
    · simp [disable_g_mode, hpre, hm, set_power_mode]

/-- One controller mutation preserves the snapshot/flag invariant. -/
theorem gmodeInv_applyGOp (s : CtrlState) (op : GOp) (h : gmodeInv s) :
    gmodeInv (applyGOp s op) := by
  cases op with
  | enable =>
    cases hg : s.g_mode_active <;>
      simp_all [applyGOp, enable_g_mode, gmodeInv, hg]
  | disable =>
    have hd := disable_clears_snapshot s
    simp [applyGOp, gmodeInv, hd.1, hd.2]
  | toggle =>
    cases hg : s.g_mode_active with
    | true =>
      have hd := disable_clears_snapshot s
      simp [applyGOp, toggle_g_mode, hg, gmodeInv, hd.1, hd.2]
    | false =>
      simp_all [applyGOp, toggle_g_mode, hg, enable_g_mode, gmodeInv]
  | setMode m =>
    by_cases hm : m = PowerMode.CUSTOM <;>
      simp_all [applyGOp, set_power_mode, hm, gmodeInv]
  | setBoost i p man =>
    simp only [applyGOp, set_fan_boost]
    split_ifs <;> simp_all [gmodeInv]

/-- The invariant holds along every operation sequence. -/
theorem gmodeInv_runGOps (ops : List GOp) (s : CtrlState) (h : gmodeInv s) :
    gmodeInv (runGOps s ops) := by
  induction ops generalizing s with
  | nil => exact h
  | cons op rest ih =>
    simpa [runGOps, List.foldl_cons] using
      ih (applyGOp s op) (gmodeInv_applyGOp s op h)

/-- C5: in every state reachable from the initial controller state by
enable/disable/toggle G-Mode, set_power_mode and set_fan_boost, the
snapshot is present iff the G-Mode flag is up (the only enable path is
the normal one, so the "entered through the normal enable path" side is
the flag itself); enabling while already active keeps the existing
snapshot; disabling always clears it. -/
theorem snapshot_iff_gmode_active :
    (∀ ops : List GOp,
      (runGOps initState ops).pre_gmode_state.isSome = (runGOps initState ops).g_mode_active)
    ∧ (∀ s : CtrlState, s.g_mode_active = true →
        ((enable_g_mode true s).2.1).pre_gmode_state = s.pre_gmode_state)
    ∧ (∀ s : CtrlState, ((disable_g_mode true s).2.1).pre_gmode_state = none) := by
  refine ⟨?_, ?_, ?_⟩
  · intro ops
    exact gmodeInv_runGOps ops initState rfl
  · intro s h
    simp [enable_g_mode, h]
  · intro s
    exact (disable_clears_snapshot s).1

/-- C5 witness: concrete uses of each hypothesis-bearing part. -/
theorem snapshot_iff_gmode_active_witness :
    ((enable_g_mode true { initState with g_mode_active := true }).2.1).pre_gmode_state
      = ({ initState with g_mode_active := true } : CtrlState).pre_gmode_state :=
  snapshot_iff_gmode_active.2.1 { initState with g_mode_active := true } rfl

/-- C3: from a state in Custom mode with fan 1 at boost 70 and manual,
G-Mode off, `enable_g_mode` then `disable_g_mode` restores mode Custom,
fan 1 boost 70, fan 1 manual, and clears the snapshot. -/
theorem g_mode_roundtrip (s : CtrlState)
    (h1 : s.current_mode = PowerMode.CUSTOM) (h2 : s.fan1_boost = 70)
    (h3 : s.fan1_manual = true) (h4 : s.g_mode_active = false) :
    ((disable_g_mode true (enable_g_mode true s).2.1).2.1).current_mode = PowerMode.CUSTOM
    ∧ ((disable_g_mode true (enable_g_mode true s).2.1).2.1).fan1_boost = 70
    ∧ ((disable_g_mode true (enable_g_mode true s).2.1).2.1).fan1_manual = true
    ∧ ((disable_g_mode true (enable_g_mode true s).2.1).2.1).pre_gmode_state = none := by
  refine ⟨?_, ?_, ?_, (disable_clears_snapshot _).1⟩ <;>
    simp [enable_g_mode, disable_g_mode, set_power_mode, set_fan_boost, h1, h2, h3, h4] <;>
    split_ifs <;> simp_all

/-- C3 witness: the round trip on a fully concrete Custom state. -/
theorem g_mode_roundtrip_witness :
    (((disable_g_mode true (enable_g_mode true
        { current_mode := PowerMode.CUSTOM, g_mode_active := false, manual_mode := true
        , fan1_boost := 70, fan2_boost := 0, fan1_manual := true, fan2_manual := false
        , pre_gmode_state := none }).2.1).2.1).current_mode = PowerMode.CUSTOM)
    ∧ (((disable_g_mode true (enable_g_mode true
        { current_mode := PowerMode.CUSTOM, g_mode_active := false, manual_mode := true
        , fan1_boost := 70, fan2_boost := 0, fan1_manual := true, fan2_manual := false
        , pre_gmode_state := none }).2.1).2.1).fan1_boost = 70) :=
  ⟨(g_mode_roundtrip _ rfl rfl rfl rfl).1, (g_mode_roundtrip _ rfl rfl rfl rfl).2.1⟩

/-! ## Claim C8: sensor fallback chain -/

/-- Whether an optional parsed sensor value lies in [lo, hi]; `false` also
covers the parse-failure case, so `inRange .. = false` says the read
yielded no in-range value. -/
def inRange (lo hi : Int) : Option Int → Bool
  | some t => decide (lo ≤ t) && decide (t ≤ hi)
  | none => false

/-- C8: the sensor getters are total (they always produce a value in this
embedding, mirroring the catch-all handlers in the source); with no hwmon
source available `get_cpu_temp` issues exactly the ACPI fallback read, and
when that read parses to no in-range value the getters return exactly
45 (CPU), 50 (GPU), 2500 (fan 1) and 2300 (fan 2). -/
theorem sensor_fallback_defaults :
    (∀ env : Env, env.hwmon_path = false →
      (get_cpu_temp env).2 = [("0x14", ["0x04", "0x01"])]
      ∧ (inRange 0 120 (pyIntHex (acpi_call_real env "0x14" ["0x04", "0x01"]).result) = false →
          (get_cpu_temp env).1 = 45))
    ∧ (∀ env : Env, env.hwmon_path = false →
        inRange 0 120 (pyIntHex (acpi_call_real env "0x14" ["0x04", "0x02"]).result) = false →
        (get_gpu_temp env).1 = 50)
    ∧ (∀ env : Env, env.hwmon_path = false →
        inRange 0 10000 (pyIntHex (acpi_call_real env "0x14" ["0x05", "0x32"]).result) = false →
        (get_fan_rpm env 1).1 = 2500)
    ∧ (∀ env : Env, env.hwmon_path = false →
        inRange 0 10000 (pyIntHex (acpi_call_real env "0x14" ["0x05", "0x33"]).result) = false →
        (get_fan_rpm env 2).1 = 2300) := by
  refine ⟨?_, ?_, ?_, ?_⟩
  · intro env h
    refine ⟨by simp [get_cpu_temp, h, cpuAcpiFallback], ?_⟩
    intro hinr
    cases hp : pyIntHex (acpi_call_real env "0x14" ["0x04", "0x01"]).result with
    | none => simp [get_cpu_temp, h, cpuAcpiFallback, hp]
    | some t =>
      rw [hp] at hinr
      simp only [inRange, Bool.and_eq_false_iff, decide_eq_false_iff_not] at hinr
      have hnot : ¬(0 ≤ t ∧ t ≤ 120) := not_and_or.mpr hinr
      simp [get_cpu_temp, h, cpuAcpiFallback, hp, hnot]
  · intro env h hinr
    cases hp : pyIntHex (acpi_call_real env "0x14" ["0x04", "0x02"]).result with
    | none => simp [get_gpu_temp, h, gpuAcpiFallback, hp]
    | some t =>
      rw [hp] at hinr
      simp only [inRange, Bool.and_eq_false_iff, decide_eq_false_iff_not] at hinr
      have hnot : ¬(0 ≤ t ∧ t ≤ 120) := not_and_or.mpr hinr
      simp [get_gpu_temp, h, gpuAcpiFallback, hp, hnot]
  · intro env h hinr
    rw [show ("0x32" : String) = hexByte 50 from by decide] at hinr
    cases hp : pyIntHex (acpi_call_real env "0x14" ["0x05", hexByte 50]).result with
    | none => simp [get_fan_rpm, h, rpmAcpiFallback, hp]
    | some t =>
      rw [hp] at hinr
      simp only [inRange, Bool.and_eq_false_iff, decide_eq_false_iff_not] at hinr
      have hnot : ¬(0 ≤ t ∧ t ≤ 10000) := not_and_or.mpr hinr
      simp [get_fan_rpm, h, rpmAcpiFallback, hp, hnot]
  · intro env h hinr
    rw [show ("0x33" : String) = hexByte 51 from by decide] at hinr
    cases hp : pyIntHex (acpi_call_real env "0x14" ["0x05", hexByte 51]).result with
    | none => simp [get_fan_rpm, h, rpmAcpiFallback, hp]
    | some t =>
      rw [hp] at hinr
      simp only [inRange, Bool.and_eq_false_iff, decide_eq_false_iff_not] at hinr
      have hnot : ¬(0 ≤ t ∧ t ≤ 10000) := not_and_or.mpr hinr
      simp [get_fan_rpm, h, rpmAcpiFallback, hp, hnot]

/-- Environment with no hwmon sensors and an ACPI interface whose reads
come back as unparseable garbage. -/
def envBad : Env :=
  { hwmon_path := false, hwmon_temps := [], hwmon_fans := []
  , acpi_raw := fun _ _ => "zz" }

/-- C8 witness: in the all-garbage environment every getter returns its
fixed default. -/
theorem sensor_fallback_defaults_witness :
    (get_cpu_temp envBad).1 = 45 ∧ (get_gpu_temp envBad).1 = 50
    ∧ (get_fan_rpm envBad 1).1 = 2500 ∧ (get_fan_rpm envBad 2).1 = 2300 :=
  ⟨(sensor_fallback_defaults.1 envBad rfl).2 (by decide),
   sensor_fallback_defaults.2.1 envBad rfl (by decide),
   sensor_fallback_defaults.2.2.1 envBad rfl (by decide),
   sensor_fallback_defaults.2.2.2 envBad rfl (by decide)⟩

/-! ## Claim C6: config round trip and backup recovery -/

/-- Setting one key leaves lookups of other keys unchanged. -/
theorem lookupA_setKeyA_ne {α : Type} (l : List (String × α)) (k q : String) (v : α)
    (h : q ≠ k) : lookupA (setKeyA l k v) q = lookupA l q := by
  induction l with
  | nil => simp [setKeyA, lookupA, List.find?, Ne.symm h]
  | cons hd tl ih =>
    obtain ⟨k0, v0⟩ := hd
    by_cases hk0 : k0 = k
    · subst hk0
      simp [setKeyA, lookupA, List.find?, Ne.symm h]
    · by_cases hq : k0 = q
      · subst hq
        simp [setKeyA, lookupA, List.find?, hk0]
      · simp only [setKeyA, if_neg hk0]
        simpa [lookupA, List.find?, hq] using ih

/-- Validation does not look at `last_saved`, so stamping it changes
nothing. -/
theorem validateFields_setKey_last (cfg : List (String × JVal)) (v : JVal) :
    validateFields (setKeyA cfg "last_saved" v) = validateFields cfg := by
  simp only [validateFields, List.all_cons, List.all_nil]
  rw [lookupA_setKeyA_ne cfg "last_saved" "power_mode" v (by decide),
      lookupA_setKeyA_ne cfg "last_saved" "g_mode" v (by decide),
      lookupA_setKeyA_ne cfg "last_saved" "fan_profiles" v (by decide)]

/-- C6: saving a schema-valid config succeeds and a following load returns
exactly the saved dict, which is the input with only `last_saved`
restamped; loading with a corrupt primary file and a schema-valid backup
returns the backup content; and the fallback to defaults happens only when
the backup also fails (invalid schema or itself corrupt). -/
theorem config_roundtrip_backup :
    (∀ (cfg : List (String × JVal)) (fs : FS) (now now2 : String) (fuel : Nat),
      validateFields cfg = true →
      (configSave cfg now fs).1 = true
      ∧ (configLoad (fuel + 1) now2 (configSave cfg now fs).2).1
          = setKeyA cfg "last_saved" (JVal.str now))
    ∧ (∀ (fields : List (String × JVal)) (fs : FS) (now : String) (fuel : Nat),
        fs.config = some FileContent.corrupt →
        fs.backup = some (FileContent.json (JVal.obj fields)) →
        validateFields fields = true →
        (configLoad (fuel + 1 + 1) now fs).1 = fields)
    ∧ (∀ (v : JVal) (fs : FS) (now : String) (fuel : Nat),
        fs.config = some FileContent.corrupt →
        fs.backup = some (FileContent.json v) →
        validateConfig v = false →
        (configLoad (fuel + 1 + 1) now fs).1 = defaultConfig)
    ∧ (∀ (fuel : Nat) (fs : FS) (now : String),
        fs.config = some FileContent.corrupt →
        fs.backup = some FileContent.corrupt →
        (configLoad fuel now fs).1 = defaultConfig) := by
  refine ⟨?_, ?_, ?_, ?_⟩
  · intro cfg fs now now2 fuel h
    have hv1 : validateFields (setKeyA cfg "last_saved" (JVal.str now)) = true := by
      rw [validateFields_setKey_last]
      exact h
    constructor
    · simp [configSave, h]
    · cases hc : fs.config <;> simp [configSave, h, hc, configLoad, hv1]
  · intro fields fs now fuel h1 h2 h3
    simp [configLoad, h1, h2, h3]
  · intro v fs now fuel h1 h2 h3
    cases v <;> simp_all [configLoad, validateConfig]
  · intro fuel
    induction fuel with
    | zero =>
      intro fs now h1 h2
      simp [configLoad]
    | succ n ih =>
      intro fs now h1 h2
      simp only [configLoad, h1, h2]
      exact ih { config := some FileContent.corrupt, backup := some FileContent.corrupt } now rfl rfl

/-- C6 witness: save-then-load round trip of the default config on an
empty filesystem. -/
theorem config_roundtrip_backup_witness :
    (configSave defaultConfig "t1" { config := none, backup := none }).1 = true
    ∧ (configLoad (0 + 1) "t2"
        (configSave defaultConfig "t1" { config := none, backup := none }).2).1
      = setKeyA defaultConfig "last_saved" (JVal.str "t1") :=
  config_roundtrip_backup.1 defaultConfig { config := none, backup := none }
    "t1" "t2" 0 (by decide)

/-! ## Claim C9: session tokens are issued but never consulted -/

/-- Whether the dispatcher would take the `authenticate` branch for this
request (the only branch that reads or writes the session map). -/
def isAuthAction (req : List (String × JVal)) : Bool :=
  match lookupA req "action" with
  | some (JVal.str a) => a = "authenticate"
  | _ => false

/-- Dispatch ignores the session map on every non-authenticate request:
the response, resulting controller state and issued calls agree for any
two session maps, and the session map itself passes through unchanged. -/
theorem process_request_ignores_sessions (env : Env) (model : String) (s : CtrlState)
    (tok : String) (now : Nat) (req : List (String × JVal))
    (sess1 sess2 : List (String × Nat)) (h : isAuthAction req = false) :
    (process_request env model s sess1 tok now req).1
      = (process_request env model s sess2 tok now req).1
    ∧ (process_request env model s sess1 tok now req).2.1
      = (process_request env model s sess2 tok now req).2.1
    ∧ (process_request env model s sess1 tok now req).2.2.1
      = (process_request env model s sess2 tok now req).2.2.1
    ∧ (process_request env model s sess1 tok now req).2.2.2 = sess1
    ∧ (process_request env model s sess2 tok now req).2.2.2 = sess2 := by
  unfold isAuthAction at h
  cases hl : lookupA req "action" with
  | none =>
    have hc : ¬(("" : String) ∈ allowedActions) := by decide
    simp [process_request, hl, hc]
  | some v =>
    rw [hl] at h
    cases v with
    | str a =>
      have ha : ¬(a = "authenticate") := by simpa using h
      by_cases hal : a ∈ allowedActions
      · by_cases h1 : a = "get_status"
        · subst h1
          simp [process_request, hl, allowedActions]
        · by_cases h2 : a = "get_temps"
          · subst h2
            simp [process_request, hl, allowedActions]
          · by_cases h3 : a = "get_fans"
            · subst h3
              simp [process_request, hl, allowedActions]
            · by_cases h4 : a = "get_power_mode"
              · subst h4
                simp [process_request, hl, allowedActions]
              · by_cases h5 : a = "set_power_mode"
                · subst h5
                  simp only [process_request, hl, Option.getD_some]
                  cases hm : modeFromLabel ((lookupA req "mode").getD (JVal.str "")) <;>
                    simp [allowedActions, hm]
                · by_cases h6 : a = "set_fan_boost"
                  · subst h6
                    simp only [process_request, hl, Option.getD_some]
                    cases hf : asPyInt (lookupA req "fan_id") <;>
                      cases hp : asPyInt (lookupA req "percentage") <;>
                        simp [allowedActions, hf, hp]
                  · by_cases h7 : a = "get_all_data"
                    · subst h7
                      simp [process_request, hl, allowedActions]
                    · by_cases h8 : a = "toggle_g_mode"
                      · subst h8
                        simp [process_request, hl, allowedActions]
                      · simp [process_request, hl, hal, ha, h1, h2, h3, h4, h5, h6, h7, h8]
      · simp [process_request, hl, hal]
    | null => simp [process_request, hl]
    | bool b => simp [process_request, hl]
    | int n => simp [process_request, hl]
    | obj fields => simp [process_request, hl]

/-- C9: for every request whose action is not `authenticate`, the full
validation-plus-dispatch path produces a response, controller state,
ACPI call list and recorded-timestamp list that are independent of the
contents of the active-sessions map, and leaves that map unchanged:
session tokens are issued but never consulted. -/
theorem sessions_issued_never_enforced (env : Env) (model : String) (s : CtrlState)
    (hist : List Nat) (tok : String) (now : Nat) (req : List (String × JVal))
    (sess1 sess2 : List (String × Nat)) (h : isAuthAction req = false) :
    (handle_request env model s sess1 hist tok now req).1
      = (handle_request env model s sess2 hist tok now req).1
    ∧ (handle_request env model s sess1 hist tok now req).2.1
      = (handle_request env model s sess2 hist tok now req).2.1
    ∧ (handle_request env model s sess1 hist tok now req).2.2.1
      = (handle_request env model s sess2 hist tok now req).2.2.1
    ∧ (handle_request env model s sess1 hist tok now req).2.2.2.1 = sess1
    ∧ (handle_request env model s sess2 hist tok now req).2.2.2.1 = sess2
    ∧ (handle_request env model s sess1 hist tok now req).2.2.2.2
      = (handle_request env model s sess2 hist tok now req).2.2.2.2 := by
  have hp := process_request_ignores_sessions env model s tok now req sess1 sess2 h
  cases hv : (validate_request now hist req).1 <;>
    simp [handle_request, hv, hp.1, hp.2.1, hp.2.2.1, hp.2.2.2.1, hp.2.2.2.2]

/-- C9 witness: a concrete `get_status` request behaves identically under
a populated and an empty session map. -/
theorem sessions_issued_never_enforced_witness :
    (handle_request envBad "m" initState [("sometoken", 3)] [] "fresh" 0 reqGet).1
      = (handle_request envBad "m" initState [] [] "fresh" 0 reqGet).1
    ∧ (handle_request envBad "m" initState [("sometoken", 3)] [] "fresh" 0 reqGet).2.2.2.1
      = [("sometoken", 3)] :=
  ⟨(sessions_issued_never_enforced envBad "m" initState [] "fresh" 0 reqGet
      [("sometoken", 3)] [] (by decide)).1,
   (sessions_issued_never_enforced envBad "m" initState [] "fresh" 0 reqGet
      [("sometoken", 3)] [] (by decide)).2.2.2.1⟩

/-- C1 witness for the amended gate: a fully concrete, well-formed call. -/
theorem acpi_call_prefix_gate_witness :
    if startsWith0x "0x14" && (["0x04"].all fun a => startsWith0x a)
    then (acpi_call_real envC1 "0x14" ["0x04"]).written = some (buildCommand "0x14" ["0x04"])
         ∧ (acpi_call_real envC1 "0x14" ["0x04"]).result
             = processAcpiResult (envC1.acpi_raw "0x14" ["0x04"])
    else (acpi_call_real envC1 "0x14" ["0x04"]).written = none
         ∧ (acpi_call_real envC1 "0x14" ["0x04"]).result = "0x0" :=
  acpi_call_prefix_gate envC1 "0x14" ["0x04"]

/-- C4 witness: the contract instantiated at Balanced on the initial
state. -/
theorem set_power_mode_contract_witness :
    (set_power_mode PowerMode.BALANCED true initState).1 = true
    ∧ (set_power_mode PowerMode.BALANCED true initState).2.1.current_mode
        = PowerMode.BALANCED :=
  ⟨(set_power_mode_contract PowerMode.BALANCED initState).1,
   (set_power_mode_contract PowerMode.BALANCED initState).2.1⟩
